import Mathlib

/-!
Shallow embedding of `azure-iot-device/azure/iot/device/provisioning/
abstract_provisioning_device_client.py`.

The module is client-construction plumbing: keyword-option validation,
registration-id validation, SAS-URI formation, credential derivation, pipeline
configuration assembly, simple mutable properties, and a result logger.

Modelling choices:
* Python dynamic values are the inductive `PyVal`; keyword-argument mappings
  (`**kwargs`) are association lists `Kwargs` with the unique-key discipline
  Python guarantees for keyword arguments.
* `raise` / normal return is `Except PyError`; `TypeError` and `ValueError`
  (the latter with its optional `__cause__`) are the constructors of `PyError`.
* `str.strip()` is `pyStrip` (drop leading and trailing whitespace).
* The external collaborators (`st.RenewableSasToken`, the pipeline types) are
  not part of the given sources.  `RenewableSasToken` is a record of the
  constructor arguments the factory passes, and the possibly-failing external
  constructor is a parameter `mkToken` of `create_from_symmetric_key`;
  `mkTokenOk` is the canonical recording instance.  The pipeline configuration
  and pipeline are records of the arguments the factory passes to them.
-/

set_option autoImplicit false

namespace AzureIotDev

/-- Dynamic (Python-style) values appearing as keyword-argument values,
payloads, and CSRs.  `noneV` is Python `None`; `obj` stands for opaque
objects such as proxy-option instances. -/
inductive PyVal where
  | str (s : String)
  | int (n : Int)
  | boolean (b : Bool)
  | noneV
  | obj (tag : Nat)
  deriving DecidableEq

/-- Error raised by the external renewable-token constructor
(`st.SasTokenError`). -/
structure SasTokenError where
  msg : String
  deriving DecidableEq

/-- The exceptions the embedded module raises: `TypeError` for unsupported
keyword arguments and `ValueError` (with optional `__cause__`) otherwise. -/
inductive PyError where
  | typeError (msg : String)
  | valueError (msg : String) (cause : Option SasTokenError)
  deriving DecidableEq

/-- A `**kwargs` mapping: association list of keyword name and value. -/
abbrev Kwargs := List (String × PyVal)

/-- Python dict lookup `kwargs[k]` / `kwargs.get(k)` as an `Option`. -/
def dictGet : Kwargs → String → Option PyVal
  | [], _ => Option.none
  | (k, v) :: rest, key => if k = key then Option.some v else dictGet rest key

/-- Python `kwargs.get(k, d)` with default `d`. -/
def dictGetD (kwargs : Kwargs) (key : String) (d : PyVal) : PyVal :=
  (dictGet kwargs key).getD d

/-- Python `str.strip()`: remove leading and trailing whitespace. -/
def pyStrip (s : String) : String :=
  String.mk (((s.data.dropWhile Char.isWhitespace).reverse.dropWhile
    Char.isWhitespace).reverse)

/-- The `valid_kwargs` list of `_validate_kwargs`. -/
def valid_kwargs : List String :=
  ["server_verification_cert", "gateway_hostname", "websockets", "cipher",
   "proxy_options", "sastoken_ttl", "keep_alive"]

/-- `_validate_kwargs(exclude, **kwargs)`: raises `TypeError` on the first
keyword that is not in `valid_kwargs` or is in `exclude`. -/
def validate_kwargs (exclude : List String) : Kwargs → Except PyError Unit
  | [] => Except.ok ()
  | (kwarg, _) :: rest =>
    if kwarg ∉ valid_kwargs ∨ kwarg ∈ exclude then
      Except.error (PyError.typeError
        ("Unsupported keyword argument \x27" ++ kwarg ++ "\x27"))
    else validate_kwargs exclude rest

/-- `validate_registration_id(reg_id)`: raises `ValueError` unless `reg_id`
is truthy and its strip is truthy (`if not (reg_id and reg_id.strip())`).
The argument is an `Option` so that Python `None` is representable. -/
def validate_registration_id (reg_id : Option String) : Except PyError Unit :=
  match reg_id with
  | Option.none =>
    Except.error
      (PyError.valueError "Registration Id can not be none, empty or blank."
        Option.none)
  | Option.some s =>
    if s = "" ∨ pyStrip s = "" then
      Except.error
        (PyError.valueError "Registration Id can not be none, empty or blank."
          Option.none)
    else Except.ok ()

/-- The `valid_config_kwargs` list of `_get_config_kwargs`. -/
def valid_config_kwargs : List String :=
  ["server_verification_cert", "gateway_hostname", "websockets", "cipher",
   "proxy_options", "keep_alive"]

/-- `_get_config_kwargs(**kwargs)`: the subset of the kwargs whose key is in
`valid_config_kwargs` (each kept key paired with its own value, as keyword
names are unique). -/
def get_config_kwargs : Kwargs → Kwargs
  | [] => []
  | (k, v) :: rest =>
    if k ∈ valid_config_kwargs then (k, v) :: get_config_kwargs rest
    else get_config_kwargs rest

/-- `_form_sas_uri(id_scope, registration_id)`: the literal template
`"{id_scope}/registrations/{registration_id}"` with the two named fields
substituted. -/
def form_sas_uri (id_scope registration_id : String) : String :=
  id_scope ++ "/registrations/" ++ registration_id

/-- `auth.SymmetricKeySigningMechanism(key=...)`: records the raw key. -/
structure SymmetricKeySigningMechanism where
  key : String
  deriving DecidableEq

/-- `st.RenewableSasToken(uri, signing_mechanism, ttl=...)` as the record of
its constructor arguments (the constructor itself is external). -/
structure RenewableSasToken where
  uri : String
  signing_mechanism : SymmetricKeySigningMechanism
  ttl : PyVal
  deriving DecidableEq

/-- The external renewable-token constructor, which may fail with
`SasTokenError`. -/
abbrev MkToken :=
  String → SymmetricKeySigningMechanism → PyVal →
    Except SasTokenError RenewableSasToken

/-- The canonical token constructor: succeeds and records its arguments. -/
def mkTokenOk : MkToken :=
  fun uri mech ttl => Except.ok { uri := uri, signing_mechanism := mech, ttl := ttl }

/-- Opaque `azure.iot.device.X509` certificate object. -/
structure X509 where
  tag : Nat
  deriving DecidableEq

/-- The credential bound into the pipeline configuration: exactly one of a
SAS token or an X509 certificate. -/
inductive Credential where
  | sastoken (t : RenewableSasToken)
  | x509cert (c : X509)
  deriving DecidableEq

/-- `pipeline.ProvisioningPipelineConfig(...)` as the record of the arguments
the factory passes to it. -/
structure ProvisioningPipelineConfig where
  hostname : String
  registration_id : Option String
  id_scope : String
  credential : Credential
  config_kwargs : Kwargs
  deriving DecidableEq

/-- `pipeline.MQTTPipeline(config)`; `on_background_exception_installed`
records whether the client initializer has installed the background-exception
handler. -/
structure MQTTPipeline where
  config : ProvisioningPipelineConfig
  on_background_exception_installed : Bool
  deriving DecidableEq

/-- A provisioning device client: one pipeline plus the two mutable
properties. -/
structure Client where
  pipeline : MQTTPipeline
  provisioning_payload : PyVal
  client_csr : PyVal
  deriving DecidableEq

/-- `AbstractProvisioningDeviceClient.__init__`: stores the pipeline, sets
both properties to `None` and installs the background-exception handler on
the pipeline. -/
def Client.init (p : MQTTPipeline) : Client :=
  { pipeline := { p with on_background_exception_installed := true }
    provisioning_payload := PyVal.noneV
    client_csr := PyVal.noneV }

/-- Rendering of a Python value as passed to `str.format` (a `None`
registration id would render as `"None"`; that branch is unreachable after
validation). -/
def pyStr : Option String → String
  | Option.none => "None"
  | Option.some s => s

/-- `create_from_symmetric_key(provisioning_host, registration_id, id_scope,
symmetric_key, **kwargs)`, parametrised by the external renewable-token
constructor `mkToken`. -/
def create_from_symmetric_key (mkToken : MkToken) (provisioning_host : String)
    (registration_id : Option String) (id_scope : String)
    (symmetric_key : String) (kwargs : Kwargs) : Except PyError Client :=
  match validate_registration_id registration_id with
  | Except.error e => Except.error e
  | Except.ok _ =>
    match validate_kwargs [] kwargs with
    | Except.error e => Except.error e
    | Except.ok _ =>
      let uri := form_sas_uri id_scope (pyStr registration_id)
      let signing_mechanism : SymmetricKeySigningMechanism :=
        { key := symmetric_key }
      let token_ttl := dictGetD kwargs "sastoken_ttl" (PyVal.int 3600)
      match mkToken uri signing_mechanism token_ttl with
      | Except.error e =>
        Except.error
          (PyError.valueError
            "Could not create a SasToken using the provided values"
            (Option.some e))
      | Except.ok sastoken =>
        let config_kwargs := get_config_kwargs kwargs
        let pipeline_configuration : ProvisioningPipelineConfig :=
          { hostname := provisioning_host
            registration_id := registration_id
            id_scope := id_scope
            credential := Credential.sastoken sastoken
            config_kwargs := config_kwargs }
        let mqtt_provisioning_pipeline : MQTTPipeline :=
          { config := pipeline_configuration
            on_background_exception_installed := false }
        Except.ok (Client.init mqtt_provisioning_pipeline)

/-- `create_from_x509_certificate(provisioning_host, registration_id,
id_scope, x509, **kwargs)`; its excluded kwargs are `["sastoken_ttl"]`. -/
def create_from_x509_certificate (provisioning_host : String)
    (registration_id : Option String) (id_scope : String) (x509 : X509)
    (kwargs : Kwargs) : Except PyError Client :=
  match validate_registration_id registration_id with
  | Except.error e => Except.error e
  | Except.ok _ =>
    let excluded_kwargs := ["sastoken_ttl"]
    match validate_kwargs excluded_kwargs kwargs with
    | Except.error e => Except.error e
    | Except.ok _ =>
      let config_kwargs := get_config_kwargs kwargs
      let pipeline_configuration : ProvisioningPipelineConfig :=
        { hostname := provisioning_host
          registration_id := registration_id
          id_scope := id_scope
          credential := Credential.x509cert x509
          config_kwargs := config_kwargs }
      let mqtt_provisioning_pipeline : MQTTPipeline :=
        { config := pipeline_configuration
          on_background_exception_installed := false }
      Except.ok (Client.init mqtt_provisioning_pipeline)

/-- Setter of the `provisioning_payload` property. -/
def Client.set_provisioning_payload (c : Client) (v : PyVal) : Client :=
  { c with provisioning_payload := v }

/-- Setter of the `client_csr` property. -/
def Client.set_client_csr (c : Client) (v : PyVal) : Client :=
  { c with client_csr := v }

/-- External registration result; only its `status` attribute is read. -/
structure RegistrationResult where
  status : String
  deriving DecidableEq

/-- `log_on_register_complete(result=None)`: the list of log lines emitted. -/
def log_on_register_complete (result : Option RegistrationResult) :
    List String :=
  match result with
  | Option.none => []
  | Option.some r =>
    if r.status = "assigned" then
      ["Successfully registered with Provisioning Service"]
    else
      ["Failed registering with Provisioning Service"]

/-- Observation: is the outcome a raised `TypeError`? -/
def isTypeError {α : Type} : Except PyError α → Bool
  | Except.error (PyError.typeError _) => true
  | _ => false

/-- Observation: the SAS URI recorded in a successfully constructed client
whose credential is a token. -/
def resultSasUri (r : Except PyError Client) : Option String :=
  match r with
  | Except.ok c =>
    match c.pipeline.config.credential with
    | Credential.sastoken t => Option.some t.uri
    | _ => Option.none
  | _ => Option.none

/-- Observation: the ttl recorded in a successfully constructed client whose
credential is a token. -/
def resultSasTtl (r : Except PyError Client) : Option PyVal :=
  match r with
  | Except.ok c =>
    match c.pipeline.config.credential with
    | Credential.sastoken t => Option.some t.ttl
    | _ => Option.none
  | _ => Option.none

/-- Observation: lookup of a key in the config kwargs of a successfully
constructed client. -/
def resultConfigGet (r : Except PyError Client) (key : String) : Option PyVal :=
  match r with
  | Except.ok c => dictGet c.pipeline.config.config_kwargs key
  | _ => Option.none

/-- A failing token constructor, for exercising the error path. -/
def mkTokenFail : MkToken :=
  fun _ _ _ => Except.error { msg := "signing failed" }

/-! ### Reduction lemmas for the validators and the two factories -/

lemma validate_registration_id_ok (reg : String) (h : pyStrip reg ≠ "") :
    validate_registration_id (Option.some reg) = Except.ok () := by
  have hcond : ¬ (reg = "" ∨ pyStrip reg = "") := by
    rintro (h1 | h2)
    · exact h (by rw [h1]; rfl)
    · exact h h2
  simp only [validate_registration_id, if_neg hcond]

lemma validate_registration_id_err (reg : Option String)
    (h : pyStrip (reg.getD "") = "") :
    validate_registration_id reg =
      Except.error
        (PyError.valueError "Registration Id can not be none, empty or blank."
          Option.none) := by
  cases reg with
  | none => rfl
  | some s =>
    have hs : pyStrip s = "" := h
    simp only [validate_registration_id, if_pos (Or.inr hs)]

lemma validate_kwargs_error_of_bad (exclude : List String) (kwargs : Kwargs)
    (h : ∃ kv ∈ kwargs, kv.1 ∉ valid_kwargs ∨ kv.1 ∈ exclude) :
    ∃ m, validate_kwargs exclude kwargs = Except.error (PyError.typeError m) := by
  induction kwargs with
  | nil => simp at h
  | cons hd tl ih =>
    obtain ⟨k, v⟩ := hd
    by_cases hbad : k ∉ valid_kwargs ∨ k ∈ exclude
    · refine ⟨"Unsupported keyword argument \x27" ++ k ++ "\x27", ?_⟩
      simp only [validate_kwargs, if_pos hbad]
    · obtain ⟨kv, hmem, hkv⟩ := h
      rcases List.mem_cons.mp hmem with heq | htl
      · subst heq
        exact absurd hkv hbad
      · obtain ⟨m, hm⟩ := ih ⟨kv, htl, hkv⟩
        exact ⟨m, by simp only [validate_kwargs, if_neg hbad, hm]⟩

lemma create_sym_err_reg (mkToken : MkToken) (host : String)
    (rid : Option String) (id_scope key : String) (kwargs : Kwargs)
    (e : PyError) (h : validate_registration_id rid = Except.error e) :
    create_from_symmetric_key mkToken host rid id_scope key kwargs =
      Except.error e := by
  simp only [create_from_symmetric_key, h]

lemma create_sym_err_kwargs (mkToken : MkToken) (host : String)
    (rid : Option String) (id_scope key : String) (kwargs : Kwargs)
    (e : PyError) (hreg : validate_registration_id rid = Except.ok ())
    (h : validate_kwargs [] kwargs = Except.error e) :
    create_from_symmetric_key mkToken host rid id_scope key kwargs =
      Except.error e := by
  simp only [create_from_symmetric_key, hreg, h]

lemma create_sym_tok_err (mkToken : MkToken) (host : String)
    (rid : Option String) (id_scope key : String) (kwargs : Kwargs)
    (e : SasTokenError)
    (hreg : validate_registration_id rid = Except.ok ())
    (hkw : validate_kwargs [] kwargs = Except.ok ())
    (htok : mkToken (form_sas_uri id_scope (pyStr rid)) { key := key }
      (dictGetD kwargs "sastoken_ttl" (PyVal.int 3600)) = Except.error e) :
    create_from_symmetric_key mkToken host rid id_scope key kwargs =
      Except.error
        (PyError.valueError
          "Could not create a SasToken using the provided values"
          (Option.some e)) := by
  simp only [create_from_symmetric_key, hreg, hkw, htok]

lemma create_sym_ok (mkToken : MkToken) (host : String) (rid : Option String)
    (id_scope key : String) (kwargs : Kwargs) (tok : RenewableSasToken)
    (hreg : validate_registration_id rid = Except.ok ())
    (hkw : validate_kwargs [] kwargs = Except.ok ())
    (htok : mkToken (form_sas_uri id_scope (pyStr rid)) { key := key }
      (dictGetD kwargs "sastoken_ttl" (PyVal.int 3600)) = Except.ok tok) :
    create_from_symmetric_key mkToken host rid id_scope key kwargs =
      Except.ok (Client.init
        { config :=
            { hostname := host
              registration_id := rid
              id_scope := id_scope
              credential := Credential.sastoken tok
              config_kwargs := get_config_kwargs kwargs }
          on_background_exception_installed := false }) := by
  simp only [create_from_symmetric_key, hreg, hkw, htok]

lemma create_x509_err_reg (host : String) (rid : Option String)
    (id_scope : String) (cert : X509) (kwargs : Kwargs) (e : PyError)
    (h : validate_registration_id rid = Except.error e) :
    create_from_x509_certificate host rid id_scope cert kwargs =
      Except.error e := by
  simp only [create_from_x509_certificate, h]

lemma create_x509_err_kwargs (host : String) (rid : Option String)
    (id_scope : String) (cert : X509) (kwargs : Kwargs) (e : PyError)
    (hreg : validate_registration_id rid = Except.ok ())
    (h : validate_kwargs ["sastoken_ttl"] kwargs = Except.error e) :
    create_from_x509_certificate host rid id_scope cert kwargs =
      Except.error e := by
  simp only [create_from_x509_certificate, hreg, h]

lemma create_x509_ok (host : String) (rid : Option String) (id_scope : String)
    (cert : X509) (kwargs : Kwargs)
    (hreg : validate_registration_id rid = Except.ok ())
    (hkw : validate_kwargs ["sastoken_ttl"] kwargs = Except.ok ()) :
    create_from_x509_certificate host rid id_scope cert kwargs =
      Except.ok (Client.init
        { config :=
            { hostname := host
              registration_id := rid
              id_scope := id_scope
              credential := Credential.x509cert cert
              config_kwargs := get_config_kwargs kwargs }
          on_background_exception_installed := false }) := by
  simp only [create_from_x509_certificate, hreg, hkw]

lemma dictGet_get_config_kwargs (kwargs : Kwargs) (key : String) :
    dictGet (get_config_kwargs kwargs) key =
      if key ∈ valid_config_kwargs then dictGet kwargs key
      else Option.none := by
  induction kwargs with
  | nil => simp [get_config_kwargs, dictGet]
  | cons hd tl ih =>
    obtain ⟨k, v⟩ := hd
    simp only [get_config_kwargs, dictGet]
    by_cases hk : k ∈ valid_config_kwargs
    · simp only [if_pos hk, dictGet]
      by_cases hkey : k = key
      · subst hkey
        simp [hk]
      · simp only [if_neg hkey, ih]
    · simp only [if_neg hk, ih]
      by_cases hkey : k = key
      · subst hkey
        simp [hk]
      · simp [hkey]

/-! ### Claim theorems -/

/-- C1: a kwargs mapping with a key outside the recognized set
`valid_kwargs`, or with a key in the given exclusion set, makes
`_validate_kwargs` raise `TypeError`; and, for a valid registration id, both
factory entry points fail with a `TypeError` when given a mapping containing
an unrecognized key — for every possible external token constructor
`mkToken`, i.e. before any credential, configuration or pipeline value is
built. -/
theorem C1_invalid_kwargs_rejected (exclude : List String)
    (kwargsV kwargsS kwargsX : Kwargs) (mkToken : MkToken)
    (host id_scope key reg : String) (cert : X509)
    (hreg : pyStrip reg ≠ "")
    (hbadV : ∃ kv ∈ kwargsV, kv.1 ∉ valid_kwargs ∨ kv.1 ∈ exclude)
    (hbadS : ∃ kv ∈ kwargsS, kv.1 ∉ valid_kwargs)
    (hbadX : ∃ kv ∈ kwargsX, kv.1 ∉ valid_kwargs) :
    isTypeError (validate_kwargs exclude kwargsV) = true ∧
    isTypeError (create_from_symmetric_key mkToken host (Option.some reg)
      id_scope key kwargsS) = true ∧
    isTypeError (create_from_x509_certificate host (Option.some reg) id_scope
      cert kwargsX) = true := by
  have hregok := validate_registration_id_ok reg hreg
  refine ⟨?_, ?_, ?_⟩
  · obtain ⟨m, hm⟩ := validate_kwargs_error_of_bad exclude kwargsV hbadV
    rw [hm]
    rfl
  · obtain ⟨m, hm⟩ := validate_kwargs_error_of_bad [] kwargsS
      (by obtain ⟨kv, hmem, hkv⟩ := hbadS; exact ⟨kv, hmem, Or.inl hkv⟩)
    rw [create_sym_err_kwargs mkToken host (Option.some reg) id_scope key
      kwargsS _ hregok hm]
    rfl
  · obtain ⟨m, hm⟩ := validate_kwargs_error_of_bad ["sastoken_ttl"] kwargsX
      (by obtain ⟨kv, hmem, hkv⟩ := hbadX; exact ⟨kv, hmem, Or.inl hkv⟩)
    rw [create_x509_err_kwargs host (Option.some reg) id_scope cert kwargsX _
      hregok hm]
    rfl

/-- Witness for C1 at concrete inputs: an excluded-but-recognized key for the
raw validator, and an unrecognized key for each factory. -/
theorem C1_invalid_kwargs_rejected_witness :
    isTypeError (validate_kwargs ["gateway_hostname"]
      [("gateway_hostname", PyVal.str "gw")]) = true ∧
    isTypeError (create_from_symmetric_key mkTokenOk "host" (Option.some "reg-1")
      "scope1" "base64key==" [("bogus", PyVal.int 1)]) = true ∧
    isTypeError (create_from_x509_certificate "host" (Option.some "reg-1")
      "scope1" (X509.mk 7) [("bogus", PyVal.int 1)]) = true :=
  C1_invalid_kwargs_rejected ["gateway_hostname"]
    [("gateway_hostname", PyVal.str "gw")] [("bogus", PyVal.int 1)]
    [("bogus", PyVal.int 1)] mkTokenOk "host" "scope1" "base64key==" "reg-1"
    (X509.mk 7) (by decide) (by decide) (by decide) (by decide)

/-- C2: a registration id that is empty or whitespace-only after stripping
makes both factory entry points raise the registration-id `ValueError`; no
client is constructed (the outcome is an error, for every token
constructor). -/
theorem C2_blank_registration_id_rejected (mkToken : MkToken)
    (host id_scope key reg : String) (cert : X509) (kwargsS kwargsX : Kwargs)
    (hblank : pyStrip reg = "") :
    create_from_symmetric_key mkToken host (Option.some reg) id_scope key
      kwargsS =
      Except.error
        (PyError.valueError "Registration Id can not be none, empty or blank."
          Option.none) ∧
    create_from_x509_certificate host (Option.some reg) id_scope cert
      kwargsX =
      Except.error
        (PyError.valueError "Registration Id can not be none, empty or blank."
          Option.none) := by
  have herr := validate_registration_id_err (Option.some reg) hblank
  exact ⟨create_sym_err_reg mkToken host (Option.some reg) id_scope key kwargsS
      _ herr,
    create_x509_err_reg host (Option.some reg) id_scope cert kwargsX _ herr⟩

/-- Witness for C2 at a whitespace-only registration id. -/
theorem C2_blank_registration_id_rejected_witness :
    create_from_symmetric_key mkTokenOk "host" (Option.some "   ") "scope1"
      "base64key==" [] =
      Except.error
        (PyError.valueError "Registration Id can not be none, empty or blank."
          Option.none) ∧
    create_from_x509_certificate "host" (Option.some "   ") "scope1"
      (X509.mk 7) [] =
      Except.error
        (PyError.valueError "Registration Id can not be none, empty or blank."
          Option.none) :=
  C2_blank_registration_id_rejected mkTokenOk "host" "scope1" "base64key=="
    "   " (X509.mk 7) [] [] (by decide)

/-- C3 counterexample: a call to `create_from_x509_certificate` whose options
include `sastoken_ttl` but whose registration id is blank does NOT fail with
a `TypeError` — it fails with the registration-id `ValueError` — so the
claim's "regardless of the other arguments" is false as stated. -/
theorem C3_counterexample :
    isTypeError (create_from_x509_certificate "host" (Option.some " ")
      "scope1" (X509.mk 0) [("sastoken_ttl", PyVal.int 10)]) = false ∧
    create_from_x509_certificate "host" (Option.some " ") "scope1" (X509.mk 0)
      [("sastoken_ttl", PyVal.int 10)] =
      Except.error
        (PyError.valueError "Registration Id can not be none, empty or blank."
          Option.none) := by
  refine ⟨?_, ?_⟩ <;> rfl

/-- C3 (amended): for every call to `create_from_x509_certificate` whose
registration id is not blank and whose options include the key
`sastoken_ttl`, construction fails with a `TypeError`. -/
theorem C3_x509_sastoken_ttl_rejected (host id_scope reg : String)
    (cert : X509) (kwargs : Kwargs) (v : PyVal)
    (hreg : pyStrip reg ≠ "")
    (httl : ("sastoken_ttl", v) ∈ kwargs) :
    isTypeError (create_from_x509_certificate host (Option.some reg) id_scope
      cert kwargs) = true := by
  obtain ⟨m, hm⟩ := validate_kwargs_error_of_bad ["sastoken_ttl"] kwargs
    ⟨("sastoken_ttl", v), httl, Or.inr (by simp)⟩
  rw [create_x509_err_kwargs host (Option.some reg) id_scope cert kwargs _
    (validate_registration_id_ok reg hreg) hm]
  rfl

/-- Witness for the amended C3. -/
theorem C3_x509_sastoken_ttl_rejected_witness :
    isTypeError (create_from_x509_certificate "host" (Option.some "reg-1")
      "scope1" (X509.mk 7) [("sastoken_ttl", PyVal.int 10)]) = true :=
  C3_x509_sastoken_ttl_rejected "host" "scope1" "reg-1" (X509.mk 7)
    [("sastoken_ttl", PyVal.int 10)] (PyVal.int 10) (by decide) (by decide)

/-- C10: when the registration id is blank (`None`, empty, or
whitespace-only) and the options also contain an unsupported key, both
factories raise the registration-id `ValueError`, not the `TypeError` of the
option validator: the registration id is validated first. -/
theorem C10_registration_id_validated_first (mkToken : MkToken)
    (host id_scope key : String) (cert : X509) (kwargsS kwargsX : Kwargs)
    (reg : Option String)
    (hblank : pyStrip (reg.getD "") = "")
    (hbadS : ∃ kv ∈ kwargsS, kv.1 ∉ valid_kwargs)
    (hbadX : ∃ kv ∈ kwargsX, kv.1 ∉ valid_kwargs) :
    create_from_symmetric_key mkToken host reg id_scope key kwargsS =
      Except.error
        (PyError.valueError "Registration Id can not be none, empty or blank."
          Option.none) ∧
    create_from_x509_certificate host reg id_scope cert kwargsX =
      Except.error
        (PyError.valueError "Registration Id can not be none, empty or blank."
          Option.none) ∧
    isTypeError (create_from_symmetric_key mkToken host reg id_scope key
      kwargsS) = false ∧
    isTypeError (create_from_x509_certificate host reg id_scope cert
      kwargsX) = false := by
  have herr := validate_registration_id_err reg hblank
  have hs := create_sym_err_reg mkToken host reg id_scope key kwargsS _ herr
  have hx := create_x509_err_reg host reg id_scope cert kwargsX _ herr
  exact ⟨hs, hx, by rw [hs]; rfl, by rw [hx]; rfl⟩

/-- Witness for C10 at registration id `None` with an unsupported option. -/
theorem C10_registration_id_validated_first_witness :
    create_from_symmetric_key mkTokenOk "host" Option.none "scope1"
      "base64key==" [("bogus", PyVal.int 1)] =
      Except.error
        (PyError.valueError "Registration Id can not be none, empty or blank."
          Option.none) ∧
    create_from_x509_certificate "host" Option.none "scope1" (X509.mk 7)
      [("bogus", PyVal.int 1)] =
      Except.error
        (PyError.valueError "Registration Id can not be none, empty or blank."
          Option.none) ∧
    isTypeError (create_from_symmetric_key mkTokenOk "host" Option.none
      "scope1" "base64key==" [("bogus", PyVal.int 1)]) = false ∧
    isTypeError (create_from_x509_certificate "host" Option.none "scope1"
      (X509.mk 7) [("bogus", PyVal.int 1)]) = false :=
  C10_registration_id_validated_first mkTokenOk "host" "scope1" "base64key=="
    (X509.mk 7) [("bogus", PyVal.int 1)] [("bogus", PyVal.int 1)] Option.none
    (by decide) (by decide) (by decide)

/-- C4: on the symmetric-key path, the URI passed to the renewable-token
constructor (recorded by `mkTokenOk`) is exactly
`id_scope ++ "/registrations/" ++ registration_id`. -/
theorem C4_sas_uri_is_scoped_registration (host id_scope key reg : String)
    (kwargs : Kwargs)
    (hreg : pyStrip reg ≠ "")
    (hkw : validate_kwargs [] kwargs = Except.ok ()) :
    resultSasUri (create_from_symmetric_key mkTokenOk host (Option.some reg)
      id_scope key kwargs) =
      Option.some (id_scope ++ "/registrations/" ++ reg) := by
  rw [create_sym_ok mkTokenOk host (Option.some reg) id_scope key kwargs _
    (validate_registration_id_ok reg hreg) hkw rfl]
  rfl

/-- Witness for C4. -/
theorem C4_sas_uri_is_scoped_registration_witness :
    resultSasUri (create_from_symmetric_key mkTokenOk "host"
      (Option.some "reg-1") "scope1" "base64key=="
      [("websockets", PyVal.boolean true)]) =
      Option.some "scope1/registrations/reg-1" :=
  C4_sas_uri_is_scoped_registration "host" "scope1" "base64key==" "reg-1"
    [("websockets", PyVal.boolean true)] (by decide) rfl

/-- C5: on the symmetric-key path, the ttl passed to the renewable-token
constructor (recorded by `mkTokenOk`) is `kwargs.get("sastoken_ttl", 3600)`:
3600 when the option is absent, and exactly the supplied value when it is
present. -/
theorem C5_ttl_default_and_override (host id_scope key reg : String)
    (kwargs : Kwargs)
    (hreg : pyStrip reg ≠ "")
    (hkw : validate_kwargs [] kwargs = Except.ok ()) :
    resultSasTtl (create_from_symmetric_key mkTokenOk host (Option.some reg)
      id_scope key kwargs) =
      Option.some (dictGetD kwargs "sastoken_ttl" (PyVal.int 3600)) ∧
    (dictGet kwargs "sastoken_ttl" = Option.none →
      resultSasTtl (create_from_symmetric_key mkTokenOk host (Option.some reg)
        id_scope key kwargs) = Option.some (PyVal.int 3600)) ∧
    ∀ v : PyVal, dictGet kwargs "sastoken_ttl" = Option.some v →
      resultSasTtl (create_from_symmetric_key mkTokenOk host (Option.some reg)
        id_scope key kwargs) = Option.some v := by
  have hmain : resultSasTtl (create_from_symmetric_key mkTokenOk host
      (Option.some reg) id_scope key kwargs) =
      Option.some (dictGetD kwargs "sastoken_ttl" (PyVal.int 3600)) := by
    rw [create_sym_ok mkTokenOk host (Option.some reg) id_scope key kwargs _
      (validate_registration_id_ok reg hreg) hkw rfl]
    rfl
  refine ⟨hmain, ?_, ?_⟩
  · intro habsent
    rw [hmain]
    unfold dictGetD
    rw [habsent]
    rfl
  · intro v hv
    rw [hmain]
    unfold dictGetD
    rw [hv]
    rfl

/-- Witness for C5: absent option gives ttl 3600; `sastoken_ttl=1200` gives
ttl 1200. -/
theorem C5_ttl_default_and_override_witness :
    resultSasTtl (create_from_symmetric_key mkTokenOk "host"
      (Option.some "reg-1") "scope1" "base64key==" []) =
      Option.some (PyVal.int 3600) ∧
    resultSasTtl (create_from_symmetric_key mkTokenOk "host"
      (Option.some "reg-1") "scope1" "base64key=="
      [("sastoken_ttl", PyVal.int 1200)]) = Option.some (PyVal.int 1200) :=
  ⟨(C5_ttl_default_and_override "host" "scope1" "base64key==" "reg-1" []
      (by decide) rfl).2.1 rfl,
   (C5_ttl_default_and_override "host" "scope1" "base64key==" "reg-1"
      [("sastoken_ttl", PyVal.int 1200)] (by decide) rfl).2.2
      (PyVal.int 1200) rfl⟩

/-- C6: on the symmetric-key path, if the external renewable-token
constructor fails with a `SasTokenError`, `create_from_symmetric_key` raises
`ValueError "Could not create a SasToken using the provided values"` whose
cause is the original token error; the outcome is an error, so no pipeline or
client is constructed. -/
theorem C6_token_error_wrapped (mkToken : MkToken)
    (host id_scope key reg : String) (kwargs : Kwargs) (e : SasTokenError)
    (hreg : pyStrip reg ≠ "")
    (hkw : validate_kwargs [] kwargs = Except.ok ())
    (htok : mkToken (form_sas_uri id_scope reg) { key := key }
      (dictGetD kwargs "sastoken_ttl" (PyVal.int 3600)) = Except.error e) :
    create_from_symmetric_key mkToken host (Option.some reg) id_scope key
      kwargs =
      Except.error
        (PyError.valueError
          "Could not create a SasToken using the provided values"
          (Option.some e)) :=
  create_sym_tok_err mkToken host (Option.some reg) id_scope key kwargs e
    (validate_registration_id_ok reg hreg) hkw htok

/-- Witness for C6 with the always-failing token constructor. -/
theorem C6_token_error_wrapped_witness :
    create_from_symmetric_key mkTokenFail "host" (Option.some "reg-1")
      "scope1" "base64key==" [] =
      Except.error
        (PyError.valueError
          "Could not create a SasToken using the provided values"
          (Option.some { msg := "signing failed" })) :=
  C6_token_error_wrapped mkTokenFail "host" "scope1" "base64key==" "reg-1" []
    { msg := "signing failed" } (by decide) rfl rfl

/-- C7: for option mappings that pass validation, the config kwargs handed to
the pipeline configuration by either factory are exactly the restriction of
the mapping to `valid_config_kwargs`: every key in that set is forwarded with
its unchanged user-supplied value, every other key — in particular
`sastoken_ttl` — is absent. -/
theorem C7_config_receives_exact_restriction (host id_scope key reg : String)
    (cert : X509) (kwargsS kwargsX : Kwargs)
    (hreg : pyStrip reg ≠ "")
    (hkwS : validate_kwargs [] kwargsS = Except.ok ())
    (hkwX : validate_kwargs ["sastoken_ttl"] kwargsX = Except.ok ()) :
    (∀ k, k ∈ valid_config_kwargs →
      resultConfigGet (create_from_symmetric_key mkTokenOk host
        (Option.some reg) id_scope key kwargsS) k = dictGet kwargsS k) ∧
    (∀ k, k ∉ valid_config_kwargs →
      resultConfigGet (create_from_symmetric_key mkTokenOk host
        (Option.some reg) id_scope key kwargsS) k = Option.none) ∧
    resultConfigGet (create_from_symmetric_key mkTokenOk host
      (Option.some reg) id_scope key kwargsS) "sastoken_ttl" = Option.none ∧
    (∀ k, k ∈ valid_config_kwargs →
      resultConfigGet (create_from_x509_certificate host (Option.some reg)
        id_scope cert kwargsX) k = dictGet kwargsX k) ∧
    (∀ k, k ∉ valid_config_kwargs →
      resultConfigGet (create_from_x509_certificate host (Option.some reg)
        id_scope cert kwargsX) k = Option.none) ∧
    resultConfigGet (create_from_x509_certificate host (Option.some reg)
      id_scope cert kwargsX) "sastoken_ttl" = Option.none := by
  have hregok := validate_registration_id_ok reg hreg
  have hS := create_sym_ok mkTokenOk host (Option.some reg) id_scope key
    kwargsS _ hregok hkwS rfl
  have hX := create_x509_ok host (Option.some reg) id_scope cert kwargsX
    hregok hkwX
  have hgetS : ∀ k, resultConfigGet (create_from_symmetric_key mkTokenOk host
      (Option.some reg) id_scope key kwargsS) k =
      dictGet (get_config_kwargs kwargsS) k := by
    intro k
    rw [hS]
    rfl
  have hgetX : ∀ k, resultConfigGet (create_from_x509_certificate host
      (Option.some reg) id_scope cert kwargsX) k =
      dictGet (get_config_kwargs kwargsX) k := by
    intro k
    rw [hX]
    rfl
  have httl : "sastoken_ttl" ∉ valid_config_kwargs := by decide
  refine ⟨?_, ?_, ?_, ?_, ?_, ?_⟩
  · intro k hk
    rw [hgetS k, dictGet_get_config_kwargs, if_pos hk]
  · intro k hk
    rw [hgetS k, dictGet_get_config_kwargs, if_neg hk]
  · rw [hgetS _, dictGet_get_config_kwargs, if_neg httl]
  · intro k hk
    rw [hgetX k, dictGet_get_config_kwargs, if_pos hk]
  · intro k hk
    rw [hgetX k, dictGet_get_config_kwargs, if_neg hk]
  · rw [hgetX _, dictGet_get_config_kwargs, if_neg httl]

/-- Witness for C7: `websockets` is forwarded unchanged on both paths while
`sastoken_ttl` (valid on the symmetric-key path) is not forwarded. -/
theorem C7_config_receives_exact_restriction_witness :
    resultConfigGet (create_from_symmetric_key mkTokenOk "host"
      (Option.some "reg-1") "scope1" "base64key=="
      [("websockets", PyVal.boolean true), ("sastoken_ttl", PyVal.int 1200)])
      "websockets" = Option.some (PyVal.boolean true) ∧
    resultConfigGet (create_from_symmetric_key mkTokenOk "host"
      (Option.some "reg-1") "scope1" "base64key=="
      [("websockets", PyVal.boolean true), ("sastoken_ttl", PyVal.int 1200)])
      "sastoken_ttl" = Option.none ∧
    resultConfigGet (create_from_x509_certificate "host"
      (Option.some "reg-1") "scope1" (X509.mk 7)
      [("gateway_hostname", PyVal.str "gw")]) "gateway_hostname" =
      Option.some (PyVal.str "gw") :=
  ⟨((C7_config_receives_exact_restriction "host" "scope1" "base64key=="
      "reg-1" (X509.mk 7)
      [("websockets", PyVal.boolean true), ("sastoken_ttl", PyVal.int 1200)]
      [("gateway_hostname", PyVal.str "gw")] (by decide) rfl
      rfl).1 "websockets" (by decide)),
   ((C7_config_receives_exact_restriction "host" "scope1" "base64key=="
      "reg-1" (X509.mk 7)
      [("websockets", PyVal.boolean true), ("sastoken_ttl", PyVal.int 1200)]
      [("gateway_hostname", PyVal.str "gw")] (by decide) rfl
      rfl).2.2.1),
   ((C7_config_receives_exact_restriction "host" "scope1" "base64key=="
      "reg-1" (X509.mk 7)
      [("websockets", PyVal.boolean true), ("sastoken_ttl", PyVal.int 1200)]
      [("gateway_hostname", PyVal.str "gw")] (by decide) rfl
      rfl).2.2.2.1 "gateway_hostname" (by decide))⟩

/-- C8: the `provisioning_payload` and `client_csr` setters store the given
value exactly as supplied, the matching getter returns it, the last write
wins, and neither setter disturbs the other property. -/
theorem C8_property_setters_last_write_wins :
    ∀ (c : Client) (u v : PyVal),
      (c.set_provisioning_payload v).provisioning_payload = v ∧
      (c.set_client_csr v).client_csr = v ∧
      ((c.set_provisioning_payload u).set_provisioning_payload
        v).provisioning_payload = v ∧
      ((c.set_client_csr u).set_client_csr v).client_csr = v ∧
      (c.set_provisioning_payload v).client_csr = c.client_csr ∧
      (c.set_client_csr v).provisioning_payload = c.provisioning_payload :=
  fun _ _ _ => ⟨rfl, rfl, rfl, rfl, rfl, rfl⟩

/-- C9: `log_on_register_complete` logs nothing for a missing result, the
success line exactly when the status is `"assigned"`, and the failure line
for every other status. -/
theorem C9_log_on_register_complete_cases :
    log_on_register_complete Option.none = [] ∧
    ∀ r : RegistrationResult,
      log_on_register_complete (Option.some r) =
        if r.status = "assigned" then
          ["Successfully registered with Provisioning Service"]
        else ["Failed registering with Provisioning Service"] :=
  ⟨rfl, fun _ => rfl⟩

end AzureIotDev
